import Mathlib

/-!
Verification of the CareConnect booking engine (`backend/booking_service.py`
and `backend/models.py`).

The embedding is a direct translation of the Python source:
* SQLAlchemy rows become Lean structures; the database session becomes an
  explicit `Store` (lists of users, activities and bookings plus the
  autoincrement counter for booking ids).
* `datetime` values become abstract `Nat` timestamps.  `get_week_start_end`
  depends on the wall clock, so `attempt_booking` receives the computed
  `weekStart`/`weekEnd` pair and the current time `now` as parameters.
* `float('inf')` used as the unlimited token sentinel becomes the
  `TokenLimit.infinite` constructor.
* Python exceptions become `Except BookingError`; the functions are written
  state-passing, returning the (possibly updated) store together with the
  result, mirroring the fact that every `raise` in the source happens before
  the single `session.add`/`session.commit`.
-/

namespace CareConnect

/-- `MembershipTier` enum from `models.py`. -/
inductive MembershipTier where
  | ADHOC
  | WEEKLY_1
  | WEEKLY_2
  | UNLIMITED
deriving DecidableEq, Repr

/-- `UserRole` enum from `models.py`. -/
inductive UserRole where
  | PARTICIPANT
  | CAREGIVER
  | STAFF
  | VOLUNTEER
deriving DecidableEq, Repr

/-- `BookingStatus` enum from `models.py`. -/
inductive BookingStatus where
  | CONFIRMED
  | WAITLIST
  | CANCELLED
deriving DecidableEq, Repr

/-- Weekly token limit: a natural number or the `float('inf')` sentinel. -/
inductive TokenLimit where
  | finite (n : Nat)
  | infinite
deriving DecidableEq, Repr

/-- `User` row (the columns the booking logic reads).  `medical_flags` is a
JSON object column that may be NULL, hence `Option` of an association list;
the service guards it with `user.medical_flags or {}`. -/
structure User where
  id : Nat
  name : String
  role : UserRole
  membership_tier : MembershipTier
  medical_flags : Option (List (String × Bool))
deriving DecidableEq, Repr

/-- `User.get_weekly_token_limit` from `models.py`: table lookup
`{ADHOC: 0, WEEKLY_1: 1, WEEKLY_2: 2, UNLIMITED: float('inf')}` (the
dictionary `.get` default `0` is unreachable since the enum is total). -/
def User.get_weekly_token_limit (u : User) : TokenLimit :=
  match u.membership_tier with
  | .ADHOC => .finite 0
  | .WEEKLY_1 => .finite 1
  | .WEEKLY_2 => .finite 2
  | .UNLIMITED => .infinite

/-- `Activity` row (the columns the booking logic reads).  `requirements`
is a JSON object column with column default `{}`, embedded as an
association list. -/
structure Activity where
  id : Nat
  title : String
  base_capacity : Nat
  volunteer_slots : Nat
  requirements : List (String × Bool)
deriving DecidableEq, Repr

/-- `Booking` row. -/
structure Booking where
  id : Nat
  user_id : Nat
  activity_id : Nat
  status : BookingStatus
  created_at : Nat
  updated_at : Nat
deriving DecidableEq, Repr

/-- The database state seen by one request: the three tables plus the
autoincrement counter for `Booking.id`. -/
structure Store where
  users : List User
  activities : List Activity
  bookings : List Booking
  next_booking_id : Nat
deriving DecidableEq, Repr

/-- Python `d.get(key, False)` on a JSON object holding booleans. -/
def dictGetBool (d : List (String × Bool)) (key : String) : Bool :=
  match d.find? (fun p => p.1 == key) with
  | some p => p.2
  | none => false

/-- `Activity.is_accessible` from `models.py`:
`self.requirements.get('accessible', False)`. -/
def Activity.is_accessible (a : Activity) : Bool :=
  dictGetBool a.requirements "accessible"

/-- `session.query(User).filter(User.id == user_id).first()`. -/
def findUser (s : Store) (user_id : Nat) : Option User :=
  s.users.find? (fun u => u.id == user_id)

/-- `session.query(Activity).filter(Activity.id == activity_id).first()`. -/
def findActivity (s : Store) (activity_id : Nat) : Option Activity :=
  s.activities.find? (fun a => a.id == activity_id)

/-- Filter of the duplicate-guard query: same user, same activity,
status `CONFIRMED`. -/
def confirmedPred (user_id activity_id : Nat) (b : Booking) : Bool :=
  b.user_id == user_id && b.activity_id == activity_id &&
    b.status == BookingStatus.CONFIRMED

/-- The duplicate-guard query of `attempt_booking` (lines 61-65):
first confirmed booking of this user for this activity. -/
def existingBooking (s : Store) (user_id activity_id : Nat) : Option Booking :=
  s.bookings.find? (confirmedPred user_id activity_id)

/-- Number of confirmed bookings for one (user, activity) pair. -/
def confirmedPairCount (s : Store) (user_id activity_id : Nat) : Nat :=
  (s.bookings.filter (confirmedPred user_id activity_id)).length

/-- Filter of the weekly-usage query: this user's confirmed bookings with
`created_at` in `[weekStart, weekEnd)`. -/
def weeklyPred (user_id weekStart weekEnd : Nat) (b : Booking) : Bool :=
  b.user_id == user_id && b.status == BookingStatus.CONFIRMED &&
    decide (weekStart ≤ b.created_at) && decide (b.created_at < weekEnd)

/-- The weekly-usage count of `attempt_booking` (lines 79-84). -/
def weeklyBookingsCount (s : Store) (user_id weekStart weekEnd : Nat) : Nat :=
  (s.bookings.filter (weeklyPred user_id weekStart weekEnd)).length

/-- Filter of the `Booking JOIN User` queries counting volunteers: booking on
this activity, confirmed, and its owner (joined by `user_id`) has role
`VOLUNTEER`.  A booking whose owner row is missing is dropped by the join. -/
def volunteerJoinPred (s : Store) (activity_id : Nat) (b : Booking) : Bool :=
  b.activity_id == activity_id && b.status == BookingStatus.CONFIRMED &&
    (match findUser s b.user_id with
     | some u => u.role == UserRole.VOLUNTEER
     | none => false)

/-- Count of confirmed volunteer bookings on an activity: the query shared by
`Activity.get_current_capacity` and the volunteer-slot check. -/
def confirmedVolunteerCount (s : Store) (activity_id : Nat) : Nat :=
  (s.bookings.filter (volunteerJoinPred s activity_id)).length

/-- Filter of the attendee query: confirmed booking on this activity whose
owner's role is NOT `VOLUNTEER`. -/
def attendeeJoinPred (s : Store) (activity_id : Nat) (b : Booking) : Bool :=
  b.activity_id == activity_id && b.status == BookingStatus.CONFIRMED &&
    (match findUser s b.user_id with
     | some u => !(u.role == UserRole.VOLUNTEER)
     | none => false)

/-- `Activity.get_current_capacity` from `models.py`:
`base_capacity + (volunteer_count * 2)`. -/
def Activity.get_current_capacity (a : Activity) (s : Store) : Nat :=
  a.base_capacity + confirmedVolunteerCount s a.id * 2

/-- `Activity.get_current_attendees` from `models.py`: count of confirmed
non-volunteer bookings on the activity. -/
def Activity.get_current_attendees (a : Activity) (s : Store) : Nat :=
  (s.bookings.filter (attendeeJoinPred s a.id)).length

/-- The stable error codes of `BookingError`. -/
inductive ErrorCode where
  | USER_NOT_FOUND
  | ACTIVITY_NOT_FOUND
  | DUPLICATE_BOOKING
  | PAYMENT_REQUIRED
  | TOKEN_LIMIT_REACHED
  | VOLUNTEER_SLOTS_FULL
  | ACTIVITY_FULL
  | ACCESSIBILITY_MISMATCH
  | BOOKING_NOT_FOUND
  | ALREADY_CANCELLED
deriving DecidableEq, Repr

/-- `BookingError(message, error_code)` from `booking_service.py`. -/
structure BookingError where
  message : String
  error_code : ErrorCode
deriving DecidableEq, Repr

/-- The f-string of the `TOKEN_LIMIT_REACHED` error (line 99). -/
def tokenLimitMessage (used lim : Nat) : String :=
  s!"Weekly Token Limit Reached. You have used {used}/{lim} tokens this week."

/-- The f-string of the `VOLUNTEER_SLOTS_FULL` error (line 122). -/
def volunteerSlotsMessage (cnt slots : Nat) : String :=
  s!"All volunteer slots are filled ({cnt}/{slots})"

/-- The f-string of the `ACTIVITY_FULL` error (line 129). -/
def activityFullMessage (att cap : Nat) : String :=
  s!"Activity at capacity ({att}/{cap} attendees)"

/-- CHECK 1 of `attempt_booking` (lines 75-101): membership-tier token
validation.  Skipped entirely when the user's role is `VOLUNTEER`. -/
def tokenCheck (s : Store) (user : User) (user_id weekStart weekEnd : Nat) :
    Option BookingError :=
  if user.role = UserRole.VOLUNTEER then
    none
  else
    let weekly_bookings_count := weeklyBookingsCount s user_id weekStart weekEnd
    let token_limit := user.get_weekly_token_limit
    if user.membership_tier = MembershipTier.ADHOC then
      some ⟨"Ad-hoc members must complete payment before booking",
            ErrorCode.PAYMENT_REQUIRED⟩
    else
      match token_limit with
      | .infinite => none
      | .finite lim =>
        if lim ≤ weekly_bookings_count then
          some ⟨tokenLimitMessage weekly_bookings_count lim,
                ErrorCode.TOKEN_LIMIT_REACHED⟩
        else none

/-- CHECK 2 of `attempt_booking` (lines 108-131): capacity validation.
Volunteers are checked against `volunteer_slots`; everyone else against the
dynamic participant capacity. -/
def capacityCheck (s : Store) (user : User) (activity : Activity)
    (activity_id : Nat) : Option BookingError :=
  let current_capacity := activity.get_current_capacity s
  let current_attendees := activity.get_current_attendees s
  if user.role = UserRole.VOLUNTEER then
    let current_volunteer_count := confirmedVolunteerCount s activity_id
    let slots := activity.volunteer_slots
    if slots ≤ current_volunteer_count then
      some ⟨volunteerSlotsMessage current_volunteer_count slots,
            ErrorCode.VOLUNTEER_SLOTS_FULL⟩
    else none
  else
    if current_capacity ≤ current_attendees then
      some ⟨activityFullMessage current_attendees current_capacity,
            ErrorCode.ACTIVITY_FULL⟩
    else none

/-- CHECK 3 of `attempt_booking` (lines 138-145): medical accessibility.
`user.medical_flags or {}`, then `get('wheelchair', False)`. -/
def accessibilityCheck (user : User) (activity : Activity) :
    Option BookingError :=
  let user_medical_flags := user.medical_flags.getD []
  let requires_wheelchair := dictGetBool user_medical_flags "wheelchair"
  if requires_wheelchair && !activity.is_accessible then
    some ⟨"This activity is not wheelchair accessible. Please contact staff for assistance.",
          ErrorCode.ACCESSIBILITY_MISMATCH⟩
  else none

/-- The validation phase of `attempt_booking` (lines 51-145): the ordered
checks, each failure short-circuiting the rest.  Returns the first error, or
`none` when every check passes. -/
def bookingDecision (s : Store) (user_id activity_id weekStart weekEnd : Nat) :
    Option BookingError :=
  match findUser s user_id with
  | none => some ⟨"User not found", ErrorCode.USER_NOT_FOUND⟩
  | some user =>
    match findActivity s activity_id with
    | none => some ⟨"Activity not found", ErrorCode.ACTIVITY_NOT_FOUND⟩
    | some activity =>
      match existingBooking s user_id activity_id with
      | some _ =>
        some ⟨"You have already booked this activity", ErrorCode.DUPLICATE_BOOKING⟩
      | none =>
        match tokenCheck s user user_id weekStart weekEnd with
        | some e => some e
        | none =>
          match capacityCheck s user activity activity_id with
          | some e => some e
          | none => accessibilityCheck user activity

/-- `attempt_booking` from `booking_service.py`, state-passing: on the first
failing check the store is returned untouched with the error (every `raise`
in the source precedes `session.add`); when all checks pass, one confirmed
booking row with `created_at = now` is inserted and its id returned. -/
def attempt_booking (s : Store) (user_id activity_id weekStart weekEnd now : Nat) :
    Store × Except BookingError Nat :=
  match bookingDecision s user_id activity_id weekStart weekEnd with
  | some e => (s, .error e)
  | none =>
    let new_booking : Booking :=
      ⟨s.next_booking_id, user_id, activity_id, BookingStatus.CONFIRMED, now, now⟩
    ({ s with
        bookings := s.bookings ++ [new_booking],
        next_booking_id := s.next_booking_id + 1 },
     .ok s.next_booking_id)

/-- In-place mutation of the booking object found by `cancel_booking`: the
first row matching `id == booking_id AND user_id == user_id` gets
`status = CANCELLED` and a fresh `updated_at`. -/
def setCancelled : List Booking → Nat → Nat → Nat → List Booking
  | [], _, _, _ => []
  | b :: rest, booking_id, user_id, now =>
    if b.id == booking_id && b.user_id == user_id then
      { b with status := BookingStatus.CANCELLED, updated_at := now } :: rest
    else
      b :: setCancelled rest booking_id user_id now

/-- `cancel_booking` from `booking_service.py`, state-passing. -/
def cancel_booking (s : Store) (booking_id user_id now : Nat) :
    Store × Except BookingError Unit :=
  match s.bookings.find? (fun b => b.id == booking_id && b.user_id == user_id) with
  | none => (s, .error ⟨"Booking not found or unauthorized", ErrorCode.BOOKING_NOT_FOUND⟩)
  | some booking =>
    if booking.status = BookingStatus.CANCELLED then
      (s, .error ⟨"Booking already cancelled", ErrorCode.ALREADY_CANCELLED⟩)
    else
      ({ s with bookings := setCancelled s.bookings booking_id user_id now }, .ok ())

/-- Error code of a state-passing result, `none` on success. -/
def resultCode {α : Type} (r : Store × Except BookingError α) : Option ErrorCode :=
  match r.2 with
  | .error e => some e.error_code
  | .ok _ => none

/-- Spec invariant: at most one confirmed booking per (user, activity) pair. -/
def AtMostOnePerPair (s : Store) : Prop :=
  ∀ user_id activity_id : Nat, confirmedPairCount s user_id activity_id ≤ 1

/-- Booking ids are pairwise distinct (primary-key property of the table). -/
def UniqueIds (s : Store) : Prop :=
  s.bookings.Pairwise (fun b c => b.id ≠ c.id)

/-- States reachable from `init` by any sequence of `attempt_booking` and
`cancel_booking` calls (failing calls leave the store unchanged). -/
inductive Reachable (init : Store) : Store → Prop where
  | refl : Reachable init init
  | book (t : Store) (user_id activity_id weekStart weekEnd now : Nat) :
      Reachable init t →
      Reachable init (attempt_booking t user_id activity_id weekStart weekEnd now).1
  | cancel (t : Store) (booking_id user_id now : Nat) :
      Reachable init t →
      Reachable init (cancel_booking t booking_id user_id now).1

/-- Spec-worded count of confirmed volunteer bookings on an activity:
"number of Confirmed bookings on the activity whose owner's role is
Volunteer".  Stated independently of `confirmedVolunteerCount` to compare
the code's join query with the spec's sentence. -/
def specVolunteerCount (s : Store) (activity_id : Nat) : Nat :=
  s.bookings.countP (fun b =>
    b.activity_id == activity_id && b.status == BookingStatus.CONFIRMED &&
      ((findUser s b.user_id).map
        (fun u => decide (u.role = UserRole.VOLUNTEER))).getD false)

/-- Spec-worded count of confirmed non-volunteer bookings on an activity:
"number of Confirmed bookings whose owner's role is not Volunteer". -/
def specAttendeeCount (s : Store) (activity_id : Nat) : Nat :=
  s.bookings.countP (fun b =>
    b.activity_id == activity_id && b.status == BookingStatus.CONFIRMED &&
      ((findUser s b.user_id).map
        (fun u => decide (¬ u.role = UserRole.VOLUNTEER))).getD false)

/-! Concrete fixtures used to instantiate the theorems on closed inputs
(mirroring the seed data of `app.py`). -/

def aliceW1 : User :=
  ⟨1, "Alice", UserRole.PARTICIPANT, MembershipTier.WEEKLY_1, some []⟩

def bobWheel : User :=
  ⟨2, "Bob", UserRole.PARTICIPANT, MembershipTier.WEEKLY_2, some [("wheelchair", true)]⟩

def emmaVol : User :=
  ⟨3, "Emma", UserRole.VOLUNTEER, MembershipTier.ADHOC, some []⟩

def davidAdhoc : User :=
  ⟨4, "David", UserRole.PARTICIPANT, MembershipTier.ADHOC, some []⟩

def carolUnlim : User :=
  ⟨5, "Carol", UserRole.PARTICIPANT, MembershipTier.UNLIMITED, some []⟩

def yogaAct : Activity :=
  ⟨1, "Morning Yoga Session", 10, 3, [("accessible", true), ("payment_required", false)]⟩

def artAct : Activity :=
  ⟨2, "Art Workshop", 8, 2, [("accessible", false), ("payment_required", false)]⟩

/-- Alice's confirmed booking of the yoga activity, created at time 5. -/
def bk1 : Booking := ⟨1, 1, 1, BookingStatus.CONFIRMED, 5, 5⟩

/-- Seeded store with no bookings. -/
def storeBase : Store :=
  ⟨[aliceW1, bobWheel, emmaVol, davidAdhoc, carolUnlim], [yogaAct, artAct], [], 1⟩

/-- Seeded store where Alice holds one confirmed booking of the yoga
activity. -/
def storeOneBooking : Store :=
  ⟨[aliceW1, bobWheel, emmaVol, davidAdhoc, carolUnlim], [yogaAct, artAct], [bk1], 2⟩

/-! ### Helper lemmas about `bookingDecision` and `attempt_booking` -/

theorem attempt_of_decision_some {s : Store}
    {user_id activity_id weekStart weekEnd : Nat} (now : Nat) {e : BookingError}
    (h : bookingDecision s user_id activity_id weekStart weekEnd = some e) :
    attempt_booking s user_id activity_id weekStart weekEnd now = (s, .error e) := by
  unfold attempt_booking
  rw [h]

theorem attempt_of_decision_none {s : Store}
    {user_id activity_id weekStart weekEnd : Nat} (now : Nat)
    (h : bookingDecision s user_id activity_id weekStart weekEnd = none) :
    attempt_booking s user_id activity_id weekStart weekEnd now =
      ({ s with
          bookings := s.bookings ++
            [⟨s.next_booking_id, user_id, activity_id, BookingStatus.CONFIRMED, now, now⟩],
          next_booking_id := s.next_booking_id + 1 },
       .ok s.next_booking_id) := by
  unfold attempt_booking
  rw [h]

theorem decision_user_none {s : Store} {user_id activity_id weekStart weekEnd : Nat}
    (h : findUser s user_id = none) :
    bookingDecision s user_id activity_id weekStart weekEnd =
      some ⟨"User not found", ErrorCode.USER_NOT_FOUND⟩ := by
  unfold bookingDecision
  rw [h]

theorem decision_activity_none {s : Store} {user_id activity_id weekStart weekEnd : Nat}
    {user : User} (hu : findUser s user_id = some user)
    (ha : findActivity s activity_id = none) :
    bookingDecision s user_id activity_id weekStart weekEnd =
      some ⟨"Activity not found", ErrorCode.ACTIVITY_NOT_FOUND⟩ := by
  unfold bookingDecision
  rw [hu, ha]

theorem decision_dup {s : Store} {user_id activity_id weekStart weekEnd : Nat}
    {user : User} {activity : Activity} {b : Booking}
    (hu : findUser s user_id = some user)
    (ha : findActivity s activity_id = some activity)
    (he : existingBooking s user_id activity_id = some b) :
    bookingDecision s user_id activity_id weekStart weekEnd =
      some ⟨"You have already booked this activity", ErrorCode.DUPLICATE_BOOKING⟩ := by
  unfold bookingDecision
  rw [hu, ha, he]

theorem decision_token {s : Store} {user_id activity_id weekStart weekEnd : Nat}
    {user : User} {activity : Activity} {e : BookingError}
    (hu : findUser s user_id = some user)
    (ha : findActivity s activity_id = some activity)
    (he : existingBooking s user_id activity_id = none)
    (ht : tokenCheck s user user_id weekStart weekEnd = some e) :
    bookingDecision s user_id activity_id weekStart weekEnd = some e := by
  unfold bookingDecision
  simp only [hu, ha, he, ht]

theorem decision_capacity {s : Store} {user_id activity_id weekStart weekEnd : Nat}
    {user : User} {activity : Activity} {e : BookingError}
    (hu : findUser s user_id = some user)
    (ha : findActivity s activity_id = some activity)
    (he : existingBooking s user_id activity_id = none)
    (ht : tokenCheck s user user_id weekStart weekEnd = none)
    (hc : capacityCheck s user activity activity_id = some e) :
    bookingDecision s user_id activity_id weekStart weekEnd = some e := by
  unfold bookingDecision
  simp only [hu, ha, he, ht, hc]

theorem decision_access {s : Store} {user_id activity_id weekStart weekEnd : Nat}
    {user : User} {activity : Activity}
    (hu : findUser s user_id = some user)
    (ha : findActivity s activity_id = some activity)
    (he : existingBooking s user_id activity_id = none)
    (ht : tokenCheck s user user_id weekStart weekEnd = none)
    (hc : capacityCheck s user activity activity_id = none) :
    bookingDecision s user_id activity_id weekStart weekEnd =
      accessibilityCheck user activity := by
  unfold bookingDecision
  simp only [hu, ha, he, ht, hc]

theorem decision_none_inv {s : Store} {user_id activity_id weekStart weekEnd : Nat}
    (h : bookingDecision s user_id activity_id weekStart weekEnd = none) :
    ∃ user activity, findUser s user_id = some user ∧
      findActivity s activity_id = some activity ∧
      existingBooking s user_id activity_id = none ∧
      tokenCheck s user user_id weekStart weekEnd = none ∧
      capacityCheck s user activity activity_id = none ∧
      accessibilityCheck user activity = none := by
  unfold bookingDecision at h
  cases hu : findUser s user_id with
  | none => simp [hu] at h
  | some user =>
    simp only [hu] at h
    cases ha : findActivity s activity_id with
    | none => simp [ha] at h
    | some activity =>
      simp only [ha] at h
      cases he : existingBooking s user_id activity_id with
      | some b => simp [he] at h
      | none =>
        simp only [he] at h
        cases ht : tokenCheck s user user_id weekStart weekEnd with
        | some e => simp [ht] at h
        | none =>
          simp only [ht] at h
          cases hc : capacityCheck s user activity activity_id with
          | some e => simp [hc] at h
          | none =>
            simp only [hc] at h
            exact ⟨user, activity, rfl, rfl, rfl, ht, hc, h⟩

theorem tokenCheck_code {s : Store} {user : User} {user_id weekStart weekEnd : Nat}
    {e : BookingError} (h : tokenCheck s user user_id weekStart weekEnd = some e) :
    e.error_code = ErrorCode.PAYMENT_REQUIRED ∨
      e.error_code = ErrorCode.TOKEN_LIMIT_REACHED := by
  simp only [tokenCheck] at h
  split at h
  · simp at h
  · split at h
    · rw [Option.some.injEq] at h
      left
      rw [← h]
    · split at h
      · simp at h
      · split at h
        · rw [Option.some.injEq] at h
          right
          rw [← h]
        · simp at h

theorem capacityCheck_code {s : Store} {user : User} {activity : Activity}
    {activity_id : Nat} {e : BookingError}
    (h : capacityCheck s user activity activity_id = some e) :
    e.error_code = ErrorCode.VOLUNTEER_SLOTS_FULL ∨
      e.error_code = ErrorCode.ACTIVITY_FULL := by
  simp only [capacityCheck] at h
  split at h
  · split at h
    · rw [Option.some.injEq] at h
      left
      rw [← h]
    · simp at h
  · split at h
    · rw [Option.some.injEq] at h
      right
      rw [← h]
    · simp at h

theorem accessibilityCheck_code {user : User} {activity : Activity}
    {e : BookingError} (h : accessibilityCheck user activity = some e) :
    e.error_code = ErrorCode.ACCESSIBILITY_MISMATCH := by
  simp only [accessibilityCheck] at h
  split at h
  · rw [Option.some.injEq] at h
    rw [← h]
  · simp at h

theorem tokenCheck_volunteer {s : Store} {user : User} {user_id weekStart weekEnd : Nat}
    (hrole : user.role = UserRole.VOLUNTEER) :
    tokenCheck s user user_id weekStart weekEnd = none := by
  simp only [tokenCheck]
  rw [if_pos hrole]

theorem tokenCheck_adhoc {s : Store} {user : User} {user_id weekStart weekEnd : Nat}
    (hrole : ¬ user.role = UserRole.VOLUNTEER)
    (htier : user.membership_tier = MembershipTier.ADHOC) :
    tokenCheck s user user_id weekStart weekEnd =
      some ⟨"Ad-hoc members must complete payment before booking",
            ErrorCode.PAYMENT_REQUIRED⟩ := by
  simp only [tokenCheck]
  rw [if_neg hrole, if_pos htier]

theorem tokenCheck_finite {s : Store} {user : User} {user_id weekStart weekEnd : Nat}
    {lim : Nat} (hrole : ¬ user.role = UserRole.VOLUNTEER)
    (htier : ¬ user.membership_tier = MembershipTier.ADHOC)
    (hlim : user.get_weekly_token_limit = TokenLimit.finite lim) :
    tokenCheck s user user_id weekStart weekEnd =
      (if lim ≤ weeklyBookingsCount s user_id weekStart weekEnd then
        some ⟨tokenLimitMessage (weeklyBookingsCount s user_id weekStart weekEnd) lim,
              ErrorCode.TOKEN_LIMIT_REACHED⟩
      else none) := by
  simp only [tokenCheck, hlim]
  rw [if_neg hrole, if_neg htier]

theorem capacityCheck_volunteer {s : Store} {user : User} {activity : Activity}
    {activity_id : Nat} (hrole : user.role = UserRole.VOLUNTEER) :
    capacityCheck s user activity activity_id =
      (if activity.volunteer_slots ≤ confirmedVolunteerCount s activity_id then
        some ⟨volunteerSlotsMessage (confirmedVolunteerCount s activity_id)
                activity.volunteer_slots,
              ErrorCode.VOLUNTEER_SLOTS_FULL⟩
      else none) := by
  simp only [capacityCheck]
  rw [if_pos hrole]

theorem capacityCheck_participant {s : Store} {user : User} {activity : Activity}
    {activity_id : Nat} (hrole : ¬ user.role = UserRole.VOLUNTEER) :
    capacityCheck s user activity activity_id =
      (if activity.get_current_capacity s ≤ activity.get_current_attendees s then
        some ⟨activityFullMessage (activity.get_current_attendees s)
                (activity.get_current_capacity s),
              ErrorCode.ACTIVITY_FULL⟩
      else none) := by
  simp only [capacityCheck]
  rw [if_neg hrole]

theorem accessibilityCheck_mismatch {user : User} {activity : Activity}
    (hwc : dictGetBool (user.medical_flags.getD []) "wheelchair" = true)
    (hacc : activity.is_accessible = false) :
    accessibilityCheck user activity =
      some ⟨"This activity is not wheelchair accessible. Please contact staff for assistance.",
            ErrorCode.ACCESSIBILITY_MISMATCH⟩ := by
  simp only [accessibilityCheck, hwc, hacc]
  rfl

theorem accessibilityCheck_accessible {user : User} {activity : Activity}
    (hacc : activity.is_accessible = true) :
    accessibilityCheck user activity = none := by
  simp only [accessibilityCheck, hacc]
  simp

/-! ### Claim theorems -/

/-- Claim C8: for every membership tier, `get_weekly_token_limit` returns
exactly Adhoc → 0, Weekly_1 → 1, Weekly_2 → 2, Unlimited → the unlimited
sentinel. -/
theorem careconnect_weekly_token_limit (u : User) :
    u.get_weekly_token_limit =
      match u.membership_tier with
      | .ADHOC => TokenLimit.finite 0
      | .WEEKLY_1 => TokenLimit.finite 1
      | .WEEKLY_2 => TokenLimit.finite 2
      | .UNLIMITED => TokenLimit.infinite := rfl

/-- Claim C10: whenever `attempt_booking` fails with any error, the stored
state is completely unchanged — every raise happens before the single
insert/commit. -/
theorem careconnect_error_no_mutation
    (s : Store) (user_id activity_id weekStart weekEnd now : Nat) (e : BookingError)
    (h : (attempt_booking s user_id activity_id weekStart weekEnd now).2 = .error e) :
    (attempt_booking s user_id activity_id weekStart weekEnd now).1 = s := by
  unfold attempt_booking at h ⊢
  cases hd : bookingDecision s user_id activity_id weekStart weekEnd with
  | some e2 => rfl
  | none => rw [hd] at h; simp at h

/-- Witness for C10: booking by a non-existent user fails and leaves the
seeded store untouched. -/
theorem careconnect_error_no_mutation_witness :
    (attempt_booking storeBase 99 1 0 10 5).1 = storeBase :=
  careconnect_error_no_mutation storeBase 99 1 0 10 5
    ⟨"User not found", ErrorCode.USER_NOT_FOUND⟩ rfl

/-- Claim C6: `attempt_booking` applies its checks in the fixed order
existence (user, then activity) → duplicate guard → token check → capacity
check → accessibility check, each failure short-circuiting all later checks;
in particular an existing confirmed booking always yields `DUPLICATE_BOOKING`
regardless of the later checks, and when every check passes exactly one
confirmed booking row is inserted. -/
theorem careconnect_check_order :
    (∀ (s : Store) (user_id activity_id weekStart weekEnd now : Nat),
      findUser s user_id = none →
      attempt_booking s user_id activity_id weekStart weekEnd now =
        (s, .error ⟨"User not found", ErrorCode.USER_NOT_FOUND⟩)) ∧
    (∀ (s : Store) (user_id activity_id weekStart weekEnd now : Nat) (user : User),
      findUser s user_id = some user → findActivity s activity_id = none →
      attempt_booking s user_id activity_id weekStart weekEnd now =
        (s, .error ⟨"Activity not found", ErrorCode.ACTIVITY_NOT_FOUND⟩)) ∧
    (∀ (s : Store) (user_id activity_id weekStart weekEnd now : Nat)
        (user : User) (activity : Activity) (b : Booking),
      findUser s user_id = some user → findActivity s activity_id = some activity →
      existingBooking s user_id activity_id = some b →
      attempt_booking s user_id activity_id weekStart weekEnd now =
        (s, .error ⟨"You have already booked this activity", ErrorCode.DUPLICATE_BOOKING⟩)) ∧
    (∀ (s : Store) (user_id activity_id weekStart weekEnd now : Nat)
        (user : User) (activity : Activity) (e : BookingError),
      findUser s user_id = some user → findActivity s activity_id = some activity →
      existingBooking s user_id activity_id = none →
      tokenCheck s user user_id weekStart weekEnd = some e →
      attempt_booking s user_id activity_id weekStart weekEnd now = (s, .error e)) ∧
    (∀ (s : Store) (user_id activity_id weekStart weekEnd now : Nat)
        (user : User) (activity : Activity) (e : BookingError),
      findUser s user_id = some user → findActivity s activity_id = some activity →
      existingBooking s user_id activity_id = none →
      tokenCheck s user user_id weekStart weekEnd = none →
      capacityCheck s user activity activity_id = some e →
      attempt_booking s user_id activity_id weekStart weekEnd now = (s, .error e)) ∧
    (∀ (s : Store) (user_id activity_id weekStart weekEnd now : Nat)
        (user : User) (activity : Activity) (e : BookingError),
      findUser s user_id = some user → findActivity s activity_id = some activity →
      existingBooking s user_id activity_id = none →
      tokenCheck s user user_id weekStart weekEnd = none →
      capacityCheck s user activity activity_id = none →
      accessibilityCheck user activity = some e →
      attempt_booking s user_id activity_id weekStart weekEnd now = (s, .error e)) ∧
    (∀ (s : Store) (user_id activity_id weekStart weekEnd now : Nat)
        (user : User) (activity : Activity),
      findUser s user_id = some user → findActivity s activity_id = some activity →
      existingBooking s user_id activity_id = none →
      tokenCheck s user user_id weekStart weekEnd = none →
      capacityCheck s user activity activity_id = none →
      accessibilityCheck user activity = none →
      attempt_booking s user_id activity_id weekStart weekEnd now =
        ({ s with
            bookings := s.bookings ++
              [⟨s.next_booking_id, user_id, activity_id, BookingStatus.CONFIRMED, now, now⟩],
            next_booking_id := s.next_booking_id + 1 },
         .ok s.next_booking_id)) := by
  refine ⟨?_, ?_, ?_, ?_, ?_, ?_, ?_⟩
  · intro s user_id activity_id weekStart weekEnd now h
    exact attempt_of_decision_some now (decision_user_none h)
  · intro s user_id activity_id weekStart weekEnd now user hu ha
    exact attempt_of_decision_some now (decision_activity_none hu ha)
  · intro s user_id activity_id weekStart weekEnd now user activity b hu ha he
    exact attempt_of_decision_some now (decision_dup hu ha he)
  · intro s user_id activity_id weekStart weekEnd now user activity e hu ha he ht
    exact attempt_of_decision_some now (decision_token hu ha he ht)
  · intro s user_id activity_id weekStart weekEnd now user activity e hu ha he ht hc
    exact attempt_of_decision_some now (decision_capacity hu ha he ht hc)
  · intro s user_id activity_id weekStart weekEnd now user activity e hu ha he ht hc hacc
    exact attempt_of_decision_some now ((decision_access hu ha he ht hc).trans hacc)
  · intro s user_id activity_id weekStart weekEnd now user activity hu ha he ht hc hacc
    exact attempt_of_decision_none now ((decision_access hu ha he ht hc).trans hacc)

/-- Witness for C6: on the seeded store, Alice re-booking the yoga activity
hits the duplicate guard. -/
theorem careconnect_check_order_witness :
    attempt_booking storeOneBooking 1 1 0 10 8 =
      (storeOneBooking,
       .error ⟨"You have already booked this activity", ErrorCode.DUPLICATE_BOOKING⟩) :=
  careconnect_check_order.2.2.1 storeOneBooking 1 1 0 10 8 aliceW1 yogaAct bk1
    rfl rfl rfl

/-- Claim C2: for a non-Volunteer user that passes the existence and
duplicate checks, an Adhoc tier always fails with `PAYMENT_REQUIRED`
regardless of the weekly count; otherwise, when the tier limit is finite and
the user's confirmed weekly usage has reached it, the attempt fails with
`TOKEN_LIMIT_REACHED`, the message carrying the usage/limit numbers. -/
theorem careconnect_token_check
    (s : Store) (user_id activity_id weekStart weekEnd now : Nat)
    (user : User) (activity : Activity)
    (hu : findUser s user_id = some user)
    (ha : findActivity s activity_id = some activity)
    (he : existingBooking s user_id activity_id = none)
    (hrole : ¬ user.role = UserRole.VOLUNTEER) :
    (user.membership_tier = MembershipTier.ADHOC →
      attempt_booking s user_id activity_id weekStart weekEnd now =
        (s, .error ⟨"Ad-hoc members must complete payment before booking",
                    ErrorCode.PAYMENT_REQUIRED⟩)) ∧
    (∀ lim : Nat, user.get_weekly_token_limit = TokenLimit.finite lim →
      ¬ user.membership_tier = MembershipTier.ADHOC →
      lim ≤ weeklyBookingsCount s user_id weekStart weekEnd →
      attempt_booking s user_id activity_id weekStart weekEnd now =
        (s, .error ⟨tokenLimitMessage (weeklyBookingsCount s user_id weekStart weekEnd) lim,
                    ErrorCode.TOKEN_LIMIT_REACHED⟩)) := by
  constructor
  · intro htier
    exact attempt_of_decision_some now
      (decision_token hu ha he (tokenCheck_adhoc hrole htier))
  · intro lim hlim htier hle
    have ht : tokenCheck s user user_id weekStart weekEnd =
        some ⟨tokenLimitMessage (weeklyBookingsCount s user_id weekStart weekEnd) lim,
              ErrorCode.TOKEN_LIMIT_REACHED⟩ := by
      rw [tokenCheck_finite hrole htier hlim, if_pos hle]
    exact attempt_of_decision_some now (decision_token hu ha he ht)

/-- Witness for C2: Alice (Weekly_1) already holds one confirmed booking
created inside the week, so booking a second activity fails with the
"1/1" token-limit message. -/
theorem careconnect_token_check_witness :
    attempt_booking storeOneBooking 1 2 0 10 8 =
      (storeOneBooking,
       .error ⟨"Weekly Token Limit Reached. You have used 1/1 tokens this week.",
               ErrorCode.TOKEN_LIMIT_REACHED⟩) := by
  have h := (careconnect_token_check storeOneBooking 1 2 0 10 8 aliceW1 artAct
      rfl rfl rfl (by decide)).2 1 rfl (by decide) (by decide)
  rw [h]
  rfl

/-- Claim C3: `get_current_capacity` is `base_capacity + 2 ×` (confirmed
volunteer bookings on the activity), `get_current_attendees` counts the
confirmed non-volunteer bookings, both recomputed from the passed-in state;
and a non-Volunteer attempt that passed the earlier checks fails with
`ACTIVITY_FULL` exactly when attendees have reached capacity. -/
theorem careconnect_capacity
    (s : Store) (user_id activity_id weekStart weekEnd now : Nat)
    (user : User) (activity : Activity)
    (hu : findUser s user_id = some user)
    (ha : findActivity s activity_id = some activity)
    (he : existingBooking s user_id activity_id = none)
    (hrole : ¬ user.role = UserRole.VOLUNTEER)
    (ht : tokenCheck s user user_id weekStart weekEnd = none) :
    (∀ (t : Store) (a : Activity),
        a.get_current_capacity t = a.base_capacity + 2 * specVolunteerCount t a.id) ∧
    (∀ (t : Store) (a : Activity),
        a.get_current_attendees t = specAttendeeCount t a.id) ∧
    (resultCode (attempt_booking s user_id activity_id weekStart weekEnd now) =
        some ErrorCode.ACTIVITY_FULL ↔
      activity.get_current_capacity s ≤ activity.get_current_attendees s) := by
  refine ⟨?_, ?_, ?_⟩
  · intro t a
    unfold Activity.get_current_capacity confirmedVolunteerCount specVolunteerCount
    rw [List.countP_eq_length_filter]
    have hpred : volunteerJoinPred t a.id = (fun b =>
        b.activity_id == a.id && b.status == BookingStatus.CONFIRMED &&
          ((findUser t b.user_id).map
            (fun u => decide (u.role = UserRole.VOLUNTEER))).getD false) := by
      funext b
      unfold volunteerJoinPred
      cases findUser t b.user_id <;> rfl
    rw [hpred]
    ring
  · intro t a
    unfold Activity.get_current_attendees specAttendeeCount
    rw [List.countP_eq_length_filter]
    have hpred : attendeeJoinPred t a.id = (fun b =>
        b.activity_id == a.id && b.status == BookingStatus.CONFIRMED &&
          ((findUser t b.user_id).map
            (fun u => decide (¬ u.role = UserRole.VOLUNTEER))).getD false) := by
      funext b
      unfold attendeeJoinPred
      cases findUser t b.user_id with
      | none => rfl
      | some u =>
        simp only [decide_not]
        rfl
    rw [hpred]
  · by_cases hfull : activity.get_current_capacity s ≤ activity.get_current_attendees s
    · have hc : capacityCheck s user activity activity_id =
          some ⟨activityFullMessage (activity.get_current_attendees s)
                  (activity.get_current_capacity s),
                ErrorCode.ACTIVITY_FULL⟩ := by
        rw [capacityCheck_participant hrole, if_pos hfull]
      rw [attempt_of_decision_some now (decision_capacity hu ha he ht hc)]
      simp [resultCode, hfull]
    · have hc : capacityCheck s user activity activity_id = none := by
        rw [capacityCheck_participant hrole, if_neg hfull]
      have hd := decision_access hu ha he ht hc
      cases hacc : accessibilityCheck user activity with
      | some e =>
        rw [attempt_of_decision_some now (hd.trans hacc)]
        have hcode := accessibilityCheck_code hacc
        simp [resultCode, hcode, hfull]
      | none =>
        rw [attempt_of_decision_none now (hd.trans hacc)]
        simp [resultCode, hfull]

/-- Witness for C3: Carol (Unlimited) booking the yoga activity on the
seeded store — capacity 10, one attendee, so the `ACTIVITY_FULL` condition
is false on both sides of the equivalence. -/
theorem careconnect_capacity_witness :
    resultCode (attempt_booking storeOneBooking 5 1 0 10 8) =
        some ErrorCode.ACTIVITY_FULL ↔
      yogaAct.get_current_capacity storeOneBooking ≤
        yogaAct.get_current_attendees storeOneBooking :=
  (careconnect_capacity storeOneBooking 5 1 0 10 8 carolUnlim yogaAct
    rfl rfl rfl (by decide) rfl).2.2

/-- Claim C4: an attempt by a Volunteer never fails with
`PAYMENT_REQUIRED`, `TOKEN_LIMIT_REACHED` or `ACTIVITY_FULL` (the token
check is skipped and participant capacity is never consulted), and — once
the existence and duplicate checks pass — it fails with
`VOLUNTEER_SLOTS_FULL` exactly when the confirmed volunteer bookings have
reached `volunteer_slots`. -/
theorem careconnect_volunteer_path
    (s : Store) (user_id activity_id weekStart weekEnd now : Nat) (user : User)
    (hu : findUser s user_id = some user)
    (hrole : user.role = UserRole.VOLUNTEER) :
    (resultCode (attempt_booking s user_id activity_id weekStart weekEnd now) ≠
        some ErrorCode.PAYMENT_REQUIRED ∧
     resultCode (attempt_booking s user_id activity_id weekStart weekEnd now) ≠
        some ErrorCode.TOKEN_LIMIT_REACHED ∧
     resultCode (attempt_booking s user_id activity_id weekStart weekEnd now) ≠
        some ErrorCode.ACTIVITY_FULL) ∧
    (∀ activity : Activity, findActivity s activity_id = some activity →
      existingBooking s user_id activity_id = none →
      (resultCode (attempt_booking s user_id activity_id weekStart weekEnd now) =
          some ErrorCode.VOLUNTEER_SLOTS_FULL ↔
        activity.volunteer_slots ≤ confirmedVolunteerCount s activity_id)) := by
  have ht : tokenCheck s user user_id weekStart weekEnd = none :=
    tokenCheck_volunteer hrole
  constructor
  · cases ha : findActivity s activity_id with
    | none =>
      rw [attempt_of_decision_some now (decision_activity_none hu ha)]
      simp [resultCode]
    | some activity =>
      cases he : existingBooking s user_id activity_id with
      | some b =>
        rw [attempt_of_decision_some now (decision_dup hu ha he)]
        simp [resultCode]
      | none =>
        by_cases hvs : activity.volunteer_slots ≤ confirmedVolunteerCount s activity_id
        · have hc : capacityCheck s user activity activity_id =
              some ⟨volunteerSlotsMessage (confirmedVolunteerCount s activity_id)
                      activity.volunteer_slots,
                    ErrorCode.VOLUNTEER_SLOTS_FULL⟩ := by
            rw [capacityCheck_volunteer hrole, if_pos hvs]
          rw [attempt_of_decision_some now (decision_capacity hu ha he ht hc)]
          simp [resultCode]
        · have hc : capacityCheck s user activity activity_id = none := by
            rw [capacityCheck_volunteer hrole, if_neg hvs]
          have hd := decision_access hu ha he ht hc
          cases hacc : accessibilityCheck user activity with
          | some e =>
            rw [attempt_of_decision_some now (hd.trans hacc)]
            have hcode := accessibilityCheck_code hacc
            simp [resultCode, hcode]
          | none =>
            rw [attempt_of_decision_none now (hd.trans hacc)]
            simp [resultCode]
  · intro activity ha he
    by_cases hvs : activity.volunteer_slots ≤ confirmedVolunteerCount s activity_id
    · have hc : capacityCheck s user activity activity_id =
          some ⟨volunteerSlotsMessage (confirmedVolunteerCount s activity_id)
                  activity.volunteer_slots,
                ErrorCode.VOLUNTEER_SLOTS_FULL⟩ := by
        rw [capacityCheck_volunteer hrole, if_pos hvs]
      rw [attempt_of_decision_some now (decision_capacity hu ha he ht hc)]
      simp [resultCode, hvs]
    · have hc : capacityCheck s user activity activity_id = none := by
        rw [capacityCheck_volunteer hrole, if_neg hvs]
      have hd := decision_access hu ha he ht hc
      cases hacc : accessibilityCheck user activity with
      | some e =>
        rw [attempt_of_decision_some now (hd.trans hacc)]
        have hcode := accessibilityCheck_code hacc
        simp [resultCode, hcode, hvs]
      | none =>
        rw [attempt_of_decision_none now (hd.trans hacc)]
        simp [resultCode, hvs]

/-- Witness for C4: Emma the volunteer books the yoga activity on the
seeded store (3 volunteer slots, none taken): the `VOLUNTEER_SLOTS_FULL`
condition is false on both sides of the equivalence. -/
theorem careconnect_volunteer_path_witness :
    resultCode (attempt_booking storeOneBooking 3 1 0 10 8) =
        some ErrorCode.VOLUNTEER_SLOTS_FULL ↔
      yogaAct.volunteer_slots ≤ confirmedVolunteerCount storeOneBooking 1 :=
  (careconnect_volunteer_path storeOneBooking 3 1 0 10 8 emmaVol rfl rfl).2
    yogaAct rfl rfl

/-- Claim C5: `is_accessible` reads `requirements['accessible']` and
defaults to `false` when the key is absent or the mapping empty; a
wheelchair user booking a non-accessible activity fails with
`ACCESSIBILITY_MISMATCH`, while the same attempt on an accessible activity
succeeds once every other check passes. -/
theorem careconnect_accessibility
    (s : Store) (user_id activity_id weekStart weekEnd now : Nat)
    (user : User) (activity : Activity)
    (hu : findUser s user_id = some user)
    (ha : findActivity s activity_id = some activity)
    (he : existingBooking s user_id activity_id = none)
    (ht : tokenCheck s user user_id weekStart weekEnd = none)
    (hc : capacityCheck s user activity activity_id = none) :
    (∀ a : Activity, a.requirements = [] → a.is_accessible = false) ∧
    (∀ a : Activity, (∀ p ∈ a.requirements, p.1 ≠ "accessible") →
      a.is_accessible = false) ∧
    (∀ (a : Activity) (p : String × Bool),
      a.requirements.find? (fun q => q.1 == "accessible") = some p →
      a.is_accessible = p.2) ∧
    (dictGetBool (user.medical_flags.getD []) "wheelchair" = true →
      activity.is_accessible = false →
      attempt_booking s user_id activity_id weekStart weekEnd now =
        (s, .error ⟨"This activity is not wheelchair accessible. Please contact staff for assistance.",
                    ErrorCode.ACCESSIBILITY_MISMATCH⟩)) ∧
    (activity.is_accessible = true →
      (attempt_booking s user_id activity_id weekStart weekEnd now).2 =
        .ok s.next_booking_id) := by
  refine ⟨?_, ?_, ?_, ?_, ?_⟩
  · intro a h
    unfold Activity.is_accessible dictGetBool
    rw [h]
    rfl
  · intro a h
    unfold Activity.is_accessible dictGetBool
    have hnone : a.requirements.find? (fun q => q.1 == "accessible") = none := by
      rw [List.find?_eq_none]
      intro p hp
      simp [h p hp]
    rw [hnone]
  · intro a p h
    unfold Activity.is_accessible dictGetBool
    rw [h]
  · intro hwc hacc
    exact attempt_of_decision_some now
      ((decision_access hu ha he ht hc).trans (accessibilityCheck_mismatch hwc hacc))
  · intro hacc
    rw [attempt_of_decision_none now
      ((decision_access hu ha he ht hc).trans (accessibilityCheck_accessible hacc))]

/-- Witness for C5: Bob (wheelchair flag) booking the non-accessible art
workshop on the seeded store fails with the accessibility error. -/
theorem careconnect_accessibility_witness :
    attempt_booking storeOneBooking 2 2 0 10 8 =
      (storeOneBooking,
       .error ⟨"This activity is not wheelchair accessible. Please contact staff for assistance.",
               ErrorCode.ACCESSIBILITY_MISMATCH⟩) :=
  (careconnect_accessibility storeOneBooking 2 2 0 10 8 bobWheel artAct
    rfl rfl rfl rfl rfl).2.2.2.1 rfl rfl

theorem existingBooking_none_count {s : Store} {user_id activity_id : Nat}
    (h : existingBooking s user_id activity_id = none) :
    confirmedPairCount s user_id activity_id = 0 := by
  unfold existingBooking at h
  unfold confirmedPairCount
  rw [List.length_eq_zero, List.filter_eq_nil_iff]
  exact List.find?_eq_none.mp h

theorem cancel_booking_fst (s : Store) (booking_id user_id now : Nat) :
    (cancel_booking s booking_id user_id now).1 = s ∨
    (cancel_booking s booking_id user_id now).1 =
      { s with bookings := setCancelled s.bookings booking_id user_id now } := by
  unfold cancel_booking
  cases s.bookings.find? (fun b => b.id == booking_id && b.user_id == user_id) with
  | none =>
    left
    rfl
  | some b =>
    by_cases hs : b.status = BookingStatus.CANCELLED
    · left
      simp [hs]
    · right
      simp [hs]

theorem setCancelled_count_le (l : List Booking) (booking_id user_id now u a : Nat) :
    ((setCancelled l booking_id user_id now).filter (confirmedPred u a)).length ≤
      (l.filter (confirmedPred u a)).length := by
  induction l with
  | nil => simp [setCancelled]
  | cons b rest ih =>
    unfold setCancelled
    by_cases hb : (b.id == booking_id && b.user_id == user_id) = true
    · rw [if_pos hb]
      rw [List.filter_cons, List.filter_cons]
      have hcb : confirmedPred u a
          { b with status := BookingStatus.CANCELLED, updated_at := now } = false := by
        unfold confirmedPred
        simp
      rw [hcb]
      by_cases hp : confirmedPred u a b = true
      · rw [if_pos hp]
        simp only [if_neg (by simp : ¬ (false = true)), List.length_cons]
        omega
      · rw [if_neg hp]
        simp only [if_neg (by simp : ¬ (false = true))]
        omega
    · rw [if_neg hb]
      rw [List.filter_cons, List.filter_cons]
      by_cases hp : confirmedPred u a b = true
      · rw [if_pos hp, if_pos hp]
        simp only [List.length_cons]
        exact Nat.succ_le_succ ih
      · rw [if_neg hp, if_neg hp]
        exact ih

theorem attempt_preserves_inv (s : Store) (user_id activity_id weekStart weekEnd now : Nat)
    (h : AtMostOnePerPair s) :
    AtMostOnePerPair (attempt_booking s user_id activity_id weekStart weekEnd now).1 := by
  cases hd : bookingDecision s user_id activity_id weekStart weekEnd with
  | some e =>
    rw [attempt_of_decision_some now hd]
    exact h
  | none =>
    obtain ⟨user, activity, hu, ha, he, -, -, -⟩ := decision_none_inv hd
    rw [attempt_of_decision_none now hd]
    intro u a
    show ((s.bookings ++
        [(⟨s.next_booking_id, user_id, activity_id, BookingStatus.CONFIRMED, now, now⟩ : Booking)]).filter
          (confirmedPred u a)).length ≤ 1
    rw [List.filter_append, List.length_append]
    have h0 := h u a
    unfold confirmedPairCount at h0
    by_cases hua : u = user_id ∧ a = activity_id
    · obtain ⟨rfl, rfl⟩ := hua
      have hz := existingBooking_none_count he
      unfold confirmedPairCount at hz
      rw [hz]
      have hpred : confirmedPred u a
          (⟨s.next_booking_id, u, a, BookingStatus.CONFIRMED, now, now⟩ : Booking) = true := by
        unfold confirmedPred
        simp
      simp [List.filter_cons, hpred]
    · cases hpred : confirmedPred u a
        (⟨s.next_booking_id, user_id, activity_id, BookingStatus.CONFIRMED, now, now⟩ : Booking) with
      | true =>
        exfalso
        unfold confirmedPred at hpred
        simp at hpred
        exact hua ⟨hpred.1.symm, hpred.2.symm⟩
      | false =>
        simp [List.filter_cons, hpred]
        omega

theorem cancel_preserves_inv (s : Store) (booking_id user_id now : Nat)
    (h : AtMostOnePerPair s) :
    AtMostOnePerPair (cancel_booking s booking_id user_id now).1 := by
  rcases cancel_booking_fst s booking_id user_id now with hf | hf
  · rw [hf]
    exact h
  · rw [hf]
    intro u a
    show ((setCancelled s.bookings booking_id user_id now).filter
        (confirmedPred u a)).length ≤ 1
    exact le_trans (setCancelled_count_le s.bookings booking_id user_id now u a) (h u a)

/-- Claim C1: through any sequence of `attempt_booking`/`cancel_booking`
calls the store keeps at most one confirmed booking per (user, activity)
pair, and whenever a confirmed booking for the pair already exists (user and
activity present), `attempt_booking` rejects with `DUPLICATE_BOOKING` and
creates nothing. -/
theorem careconnect_duplicate_invariant :
    (∀ init t : Store, AtMostOnePerPair init → Reachable init t → AtMostOnePerPair t) ∧
    (∀ (s : Store) (user_id activity_id weekStart weekEnd now : Nat),
      (findUser s user_id).isSome = true →
      (findActivity s activity_id).isSome = true →
      (existingBooking s user_id activity_id).isSome = true →
      attempt_booking s user_id activity_id weekStart weekEnd now =
        (s, .error ⟨"You have already booked this activity",
                    ErrorCode.DUPLICATE_BOOKING⟩)) := by
  constructor
  · intro init t hinv hreach
    induction hreach with
    | refl => exact hinv
    | book t2 uid aid ws we n2 hr ih => exact attempt_preserves_inv t2 uid aid ws we n2 ih
    | cancel t2 bid uid n2 hr ih => exact cancel_preserves_inv t2 bid uid n2 ih
  · intro s user_id activity_id weekStart weekEnd now hu ha he
    obtain ⟨user, hu2⟩ := Option.isSome_iff_exists.mp hu
    obtain ⟨activity, ha2⟩ := Option.isSome_iff_exists.mp ha
    obtain ⟨b, he2⟩ := Option.isSome_iff_exists.mp he
    exact attempt_of_decision_some now (decision_dup hu2 ha2 he2)

/-- Witness for C1: the seeded one-booking store satisfies the invariant
and Alice's duplicate attempt on it is rejected without change. -/
theorem careconnect_duplicate_invariant_witness :
    AtMostOnePerPair storeOneBooking ∧
    attempt_booking storeOneBooking 1 1 0 10 9 =
      (storeOneBooking,
       .error ⟨"You have already booked this activity",
               ErrorCode.DUPLICATE_BOOKING⟩) := by
  have hinv : AtMostOnePerPair storeOneBooking := by
    intro u a
    exact le_trans (List.length_filter_le _ _) (by decide)
  exact ⟨careconnect_duplicate_invariant.1 storeOneBooking storeOneBooking hinv
      Reachable.refl,
    careconnect_duplicate_invariant.2 storeOneBooking 1 1 0 10 9 rfl rfl rfl⟩

theorem mem_setCancelled {b : Booking} {l : List Booking} {booking_id user_id now : Nat}
    (h : b ∈ setCancelled l booking_id user_id now) :
    b ∈ l ∨ b.status = BookingStatus.CANCELLED := by
  induction l with
  | nil => simp [setCancelled] at h
  | cons c rest ih =>
    unfold setCancelled at h
    by_cases hc : (c.id == booking_id && c.user_id == user_id) = true
    · rw [if_pos hc] at h
      rcases List.mem_cons.mp h with h1 | h1
      · right
        rw [h1]
      · left
        exact List.mem_cons_of_mem _ h1
    · rw [if_neg hc] at h
      rcases List.mem_cons.mp h with h1 | h1
      · left
        rw [h1]
        exact List.mem_cons_self _ _
      · rcases ih h1 with h2 | h2
        · left
          exact List.mem_cons_of_mem _ h2
        · right
          exact h2

theorem attempt_preserves_status (s : Store) (user_id activity_id weekStart weekEnd now : Nat)
    (h : ∀ b ∈ s.bookings,
      b.status = BookingStatus.CONFIRMED ∨ b.status = BookingStatus.CANCELLED) :
    ∀ b ∈ (attempt_booking s user_id activity_id weekStart weekEnd now).1.bookings,
      b.status = BookingStatus.CONFIRMED ∨ b.status = BookingStatus.CANCELLED := by
  cases hd : bookingDecision s user_id activity_id weekStart weekEnd with
  | some e =>
    rw [attempt_of_decision_some now hd]
    exact h
  | none =>
    rw [attempt_of_decision_none now hd]
    intro b hb
    have hb2 : b ∈ s.bookings ++
        [⟨s.next_booking_id, user_id, activity_id, BookingStatus.CONFIRMED, now, now⟩] := hb
    rcases List.mem_append.mp hb2 with h1 | h1
    · exact h b h1
    · left
      rw [List.mem_singleton.mp h1]

theorem cancel_preserves_status (s : Store) (booking_id user_id now : Nat)
    (h : ∀ b ∈ s.bookings,
      b.status = BookingStatus.CONFIRMED ∨ b.status = BookingStatus.CANCELLED) :
    ∀ b ∈ (cancel_booking s booking_id user_id now).1.bookings,
      b.status = BookingStatus.CONFIRMED ∨ b.status = BookingStatus.CANCELLED := by
  rcases cancel_booking_fst s booking_id user_id now with hf | hf
  · rw [hf]
    exact h
  · rw [hf]
    intro b hb
    have hb2 : b ∈ setCancelled s.bookings booking_id user_id now := hb
    rcases mem_setCancelled hb2 with h1 | h1
    · exact h b h1
    · right
      exact h1

/-- Claim C9: in every state reachable from a store with no bookings via
`attempt_booking` and `cancel_booking`, each booking's status is Confirmed
or Cancelled — bookings are created Confirmed, the only transition flips
Confirmed to Cancelled, and `WAITLIST` is never assigned. -/
theorem careconnect_status_lifecycle (init t : Store)
    (hinit : init.bookings = []) (hreach : Reachable init t) :
    ∀ b ∈ t.bookings,
      b.status = BookingStatus.CONFIRMED ∨ b.status = BookingStatus.CANCELLED := by
  induction hreach with
  | refl =>
    intro b hb
    rw [hinit] at hb
    simp at hb
  | book t2 uid aid ws we n2 hr ih => exact attempt_preserves_status t2 uid aid ws we n2 ih
  | cancel t2 bid uid n2 hr ih => exact cancel_preserves_status t2 bid uid n2 ih

/-- Witness for C9: after Carol's successful booking on the seeded empty
store, the single created booking is Confirmed. -/
theorem careconnect_status_lifecycle_witness :
    (⟨1, 5, 1, BookingStatus.CONFIRMED, 8, 8⟩ : Booking).status =
        BookingStatus.CONFIRMED ∨
      (⟨1, 5, 1, BookingStatus.CONFIRMED, 8, 8⟩ : Booking).status =
        BookingStatus.CANCELLED :=
  careconnect_status_lifecycle storeBase (attempt_booking storeBase 5 1 0 10 8).1 rfl
    (Reachable.book storeBase 5 1 0 10 8 Reachable.refl)
    ⟨1, 5, 1, BookingStatus.CONFIRMED, 8, 8⟩ (by decide)

theorem find_first_unique {b : Booking} {p : Booking → Bool}
    (hpb : p b = true) (hid : ∀ x, p x = true → x.id = b.id) :
    ∀ l : List Booking, l.Pairwise (fun x y => x.id ≠ y.id) → b ∈ l →
      l.find? p = some b := by
  intro l
  induction l with
  | nil =>
    intro _ h
    simp at h
  | cons c rest ih =>
    intro huniq hmem
    rcases List.mem_cons.mp hmem with rfl | hmem2
    · exact List.find?_cons_of_pos rest hpb
    · have hne : c.id ≠ b.id := (List.pairwise_cons.mp huniq).1 b hmem2
      have hpc : ¬ p c = true := fun hx => hne (hid c hx)
      rw [List.find?_cons_of_neg rest hpc]
      exact ih (List.pairwise_cons.mp huniq).2 hmem2

theorem setCancelled_filter_count {b : Booking} (now : Nat) (q : Booking → Bool) :
    ∀ l : List Booking, l.Pairwise (fun x y => x.id ≠ y.id) → b ∈ l →
      ((setCancelled l b.id b.user_id now).filter q).length +
          (if q b = true then 1 else 0) =
        (l.filter q).length +
          (if q { b with status := BookingStatus.CANCELLED, updated_at := now } = true
            then 1 else 0) := by
  intro l
  induction l with
  | nil =>
    intro _ h
    simp at h
  | cons c rest ih =>
    intro huniq hmem
    rcases List.mem_cons.mp hmem with rfl | hmem2
    · unfold setCancelled
      rw [if_pos (by simp)]
      rw [List.filter_cons, List.filter_cons]
      by_cases h1 : q b = true
      · by_cases h2 : q { b with status := BookingStatus.CANCELLED, updated_at := now } = true
        · simp [h1, h2]
        · simp [h1, h2]
      · by_cases h2 : q { b with status := BookingStatus.CANCELLED, updated_at := now } = true
        · simp [h1, h2]
        · simp [h1, h2]
    · have hne : c.id ≠ b.id := (List.pairwise_cons.mp huniq).1 b hmem2
      unfold setCancelled
      rw [if_neg (by simp [hne] : ¬ (c.id == b.id && c.user_id == b.user_id) = true)]
      rw [List.filter_cons, List.filter_cons]
      have ih2 := ih (List.pairwise_cons.mp huniq).2 hmem2
      by_cases hc : q c = true
      · rw [if_pos hc, if_pos hc]
        simp only [List.length_cons]
        omega
      · rw [if_neg hc, if_neg hc]
        exact ih2

/-- Claim C7: when a user holds a confirmed booking (in a well-formed store:
distinct booking ids, at most one confirmed booking per pair), cancelling it
succeeds, frees the duplicate guard, makes the following re-booking attempt
not fail with `DUPLICATE_BOOKING`, removes the booking from the attendee /
volunteer / weekly-usage counts, and the re-booking succeeds whenever the
remaining checks pass. -/
theorem careconnect_cancel_rebook
    (s : Store) (b : Booking) (user : User) (activity : Activity)
    (weekStart weekEnd now now2 : Nat)
    (hmem : b ∈ s.bookings) (hstat : b.status = BookingStatus.CONFIRMED)
    (hu : findUser s b.user_id = some user)
    (ha : findActivity s b.activity_id = some activity)
    (huniq : UniqueIds s) (hinv : AtMostOnePerPair s) :
    (cancel_booking s b.id b.user_id now).2 = .ok () ∧
    existingBooking (cancel_booking s b.id b.user_id now).1 b.user_id b.activity_id =
      none ∧
    resultCode (attempt_booking (cancel_booking s b.id b.user_id now).1
        b.user_id b.activity_id weekStart weekEnd now2) ≠
      some ErrorCode.DUPLICATE_BOOKING ∧
    (¬ user.role = UserRole.VOLUNTEER →
      activity.get_current_attendees (cancel_booking s b.id b.user_id now).1 + 1 =
        activity.get_current_attendees s) ∧
    (user.role = UserRole.VOLUNTEER →
      confirmedVolunteerCount (cancel_booking s b.id b.user_id now).1 b.activity_id + 1 =
        confirmedVolunteerCount s b.activity_id) ∧
    (weekStart ≤ b.created_at → b.created_at < weekEnd →
      weeklyBookingsCount (cancel_booking s b.id b.user_id now).1 b.user_id
          weekStart weekEnd + 1 =
        weeklyBookingsCount s b.user_id weekStart weekEnd) ∧
    (tokenCheck (cancel_booking s b.id b.user_id now).1 user b.user_id
        weekStart weekEnd = none →
      capacityCheck (cancel_booking s b.id b.user_id now).1 user activity
        b.activity_id = none →
      accessibilityCheck user activity = none →
      (attempt_booking (cancel_booking s b.id b.user_id now).1 b.user_id b.activity_id
          weekStart weekEnd now2).2 =
        .ok (cancel_booking s b.id b.user_id now).1.next_booking_id) := by
  have hfind : s.bookings.find? (fun x => x.id == b.id && x.user_id == b.user_id) =
      some b := by
    apply find_first_unique (by simp) ?_ s.bookings huniq hmem
    intro x hx
    simp at hx
    exact hx.1
  have hne : ¬ b.status = BookingStatus.CANCELLED := by
    rw [hstat]
    simp
  have hcancel : cancel_booking s b.id b.user_id now =
      ({ s with bookings := setCancelled s.bookings b.id b.user_id now }, .ok ()) := by
    unfold cancel_booking
    rw [hfind]
    simp [hne]
  have hcount : ∀ q : Booking → Bool,
      ((setCancelled s.bookings b.id b.user_id now).filter q).length +
          (if q b = true then 1 else 0) =
        (s.bookings.filter q).length +
          (if q { b with status := BookingStatus.CANCELLED, updated_at := now } = true
            then 1 else 0) :=
    fun q => setCancelled_filter_count now q s.bookings huniq hmem
  have hq1 : confirmedPred b.user_id b.activity_id b = true := by
    unfold confirmedPred
    simp [hstat]
  have hq1c : confirmedPred b.user_id b.activity_id
      { b with status := BookingStatus.CANCELLED, updated_at := now } = false := by
    unfold confirmedPred
    simp
  have hcnt1 := hcount (confirmedPred b.user_id b.activity_id)
  rw [hq1, hq1c] at hcnt1
  simp at hcnt1
  have hinv1 := hinv b.user_id b.activity_id
  unfold confirmedPairCount at hinv1
  have hzero : ((setCancelled s.bookings b.id b.user_id now).filter
      (confirmedPred b.user_id b.activity_id)).length = 0 := by omega
  have hexist : existingBooking
      { s with bookings := setCancelled s.bookings b.id b.user_id now }
      b.user_id b.activity_id = none := by
    unfold existingBooking
    rw [List.find?_eq_none]
    intro x hx hpx
    have hnil : (setCancelled s.bookings b.id b.user_id now).filter
        (confirmedPred b.user_id b.activity_id) = [] := List.length_eq_zero.mp hzero
    exact List.filter_eq_nil_iff.mp hnil x hx hpx
  have hu2 : findUser { s with bookings := setCancelled s.bookings b.id b.user_id now }
      b.user_id = some user := hu
  have ha2 : findActivity
      { s with bookings := setCancelled s.bookings b.id b.user_id now }
      b.activity_id = some activity := ha
  have haid : activity.id = b.activity_id := by
    have := List.find?_some ha
    simpa using this
  refine ⟨?_, ?_, ?_, ?_, ?_, ?_, ?_⟩
  · rw [hcancel]
  · rw [hcancel]
    exact hexist
  · rw [hcancel]
    intro hdup
    cases htc : tokenCheck { s with bookings := setCancelled s.bookings b.id b.user_id now }
        user b.user_id weekStart weekEnd with
    | some e =>
      rw [attempt_of_decision_some now2 (decision_token hu2 ha2 hexist htc)] at hdup
      simp [resultCode] at hdup
      rcases tokenCheck_code htc with h | h <;> rw [hdup] at h <;> simp at h
    | none =>
      cases hcc : capacityCheck
          { s with bookings := setCancelled s.bookings b.id b.user_id now }
          user activity b.activity_id with
      | some e =>
        rw [attempt_of_decision_some now2 (decision_capacity hu2 ha2 hexist htc hcc)] at hdup
        simp [resultCode] at hdup
        rcases capacityCheck_code hcc with h | h <;> rw [hdup] at h <;> simp at h
      | none =>
        cases hac : accessibilityCheck user activity with
        | some e =>
          rw [attempt_of_decision_some now2
            ((decision_access hu2 ha2 hexist htc hcc).trans hac)] at hdup
          simp [resultCode] at hdup
          have h := accessibilityCheck_code hac
          rw [hdup] at h
          simp at h
        | none =>
          rw [attempt_of_decision_none now2
            ((decision_access hu2 ha2 hexist htc hcc).trans hac)] at hdup
          simp [resultCode] at hdup
  · intro hrole
    rw [hcancel]
    have hq : attendeeJoinPred s b.activity_id b = true := by
      unfold attendeeJoinPred
      rw [hu]
      simp [hstat, hrole]
    have hqc : attendeeJoinPred s b.activity_id
        { b with status := BookingStatus.CANCELLED, updated_at := now } = false := by
      unfold attendeeJoinPred
      simp
    have h2 := hcount (attendeeJoinPred s b.activity_id)
    rw [hq, hqc] at h2
    simp at h2
    unfold Activity.get_current_attendees
    rw [haid]
    exact h2
  · intro hrole
    rw [hcancel]
    have hq : volunteerJoinPred s b.activity_id b = true := by
      unfold volunteerJoinPred
      rw [hu]
      simp [hstat, hrole]
    have hqc : volunteerJoinPred s b.activity_id
        { b with status := BookingStatus.CANCELLED, updated_at := now } = false := by
      unfold volunteerJoinPred
      simp
    have h2 := hcount (volunteerJoinPred s b.activity_id)
    rw [hq, hqc] at h2
    simp at h2
    unfold confirmedVolunteerCount
    exact h2
  · intro hws hwe
    rw [hcancel]
    have hq : weeklyPred b.user_id weekStart weekEnd b = true := by
      unfold weeklyPred
      simp [hstat, hws, hwe]
    have hqc : weeklyPred b.user_id weekStart weekEnd
        { b with status := BookingStatus.CANCELLED, updated_at := now } = false := by
      unfold weeklyPred
      simp
    have h2 := hcount (weeklyPred b.user_id weekStart weekEnd)
    rw [hq, hqc] at h2
    simp at h2
    unfold weeklyBookingsCount
    exact h2
  · rw [hcancel]
    intro ht hc hac
    rw [attempt_of_decision_none now2 ((decision_access hu2 ha2 hexist ht hc).trans hac)]

/-- Witness for C7: Alice cancels her yoga booking on the seeded store; the
duplicate guard is freed and her re-booking attempt is not rejected as a
duplicate. -/
theorem careconnect_cancel_rebook_witness :
    existingBooking (cancel_booking storeOneBooking 1 1 20).1 1 1 = none ∧
    resultCode (attempt_booking (cancel_booking storeOneBooking 1 1 20).1 1 1 0 10 25) ≠
      some ErrorCode.DUPLICATE_BOOKING := by
  have h := careconnect_cancel_rebook storeOneBooking bk1 aliceW1 yogaAct 0 10 20 25
    (by decide) rfl rfl rfl
    (by simp [UniqueIds, storeOneBooking])
    (fun u a => le_trans (List.length_filter_le _ _) (by decide))
  exact ⟨h.2.1, h.2.2.1⟩

end CareConnect
